import Mathlib

/-!
Verification of the email-address validation model of a small Flask /
SQLAlchemy application.  The source consists of two files:

* `server/models.py` — an `EmailAddress` table (`id`, `email`,
  `backup_email`) whose `validate_email` hook runs on every assignment to
  `email` or `backup_email` and applies, in order: presence, type,
  `'@'`-containment, uniqueness (against the stored `email` column),
  length (≤ 254) and a blocked-domain check on `address.split("@")[1]`.
* `server/app.py` — a single route `GET /` returning the constant string
  `"Validations Technical Lesson"`.

The embedding below translates these into Lean.  Python values that may be
assigned to the fields are modelled by `PyValue`; strings are lists of
characters so that Python's `str.split` can be modelled faithfully by
structural recursion (`pySplit`).  The database session is a list of
records; `filter_by(email = address).first()` becomes a Boolean scan of
the `email` column.  A `ValueError` raised by the validator becomes the
`Except.error` constructor carrying the message text.
-/

namespace EmailValidation

/-- Email contents are modelled as lists of characters. -/
abbrev Str := List Char

/-- Python values that the claims assign to the fields: strings, integers,
lists, booleans and `None`. -/
inductive PyValue where
  | str : Str → PyValue
  | int : Int → PyValue
  | list : List PyValue → PyValue
  | bool : Bool → PyValue
  | none : PyValue
deriving Repr

/-- Python truthiness, as tested by `if not address:` in `validate_email`.
Empty strings, zero, empty lists, `False` and `None` are falsy. -/
def truthy : PyValue → Bool
  | .str s => !s.isEmpty
  | .int n => n != 0
  | .list xs => !xs.isEmpty
  | .bool b => b
  | .none => false

/-- `isinstance(address, str)` from line 19 of `models.py`. -/
def isStr : PyValue → Bool
  | .str _ => true
  | _ => false

/-- Accumulator worker for `pySplit`: splits the remaining characters at
every occurrence of `c`, the reversed accumulator holding the current
segment. -/
def splitOnAux (c : Char) : List Char → List Char → List (List Char)
  | [], acc => [acc.reverse]
  | x :: xs, acc =>
      if x = c then acc.reverse :: splitOnAux c xs []
      else splitOnAux c xs (x :: acc)

/-- Python's `s.split(c)` for a single separator character: the list of
maximal segments between occurrences of `c` (adjacent separators yield
empty segments, exactly as in Python). -/
def pySplit (c : Char) (s : Str) : List Str := splitOnAux c s []

/-- A row of the `emailaddress` table; both string columns are nullable. -/
structure EmailRecord where
  id : Nat
  email : Option Str
  backup_email : Option Str
deriving DecidableEq, Repr

/-- The database session: the list of stored rows visible to
`db.session.query`. -/
abbrev Store := List EmailRecord

/-- The blocklist `["hotmail.com", "yahoo.com"]` from line 35 of
`models.py`. -/
def blockedDomains : List Str := [("hotmail.com").data, ("yahoo.com").data]

/-- `db.session.query(EmailAddress.id).filter_by(email = address).first()
is not None`: some stored row's `email` column equals the candidate.  The
`backup_email` column is never consulted. -/
def hasDuplicate (store : Store) (s : Str) : Bool :=
  store.any (fun r => decide (r.email = some s))

/-- The field being assigned; `validate_email` receives it as `key` and
ignores it. -/
inductive FieldKey where
  | email
  | backup_email
deriving DecidableEq, Repr

/-- `EmailAddress.validate_email` from `models.py` lines 12–38: the six
checks in source order — presence, type, `'@'`-containment, uniqueness,
length, blocked domain — first failure raising a `ValueError` with the
corresponding message, otherwise returning the address unchanged. -/
def validate_email (store : Store) (key : FieldKey) (address : PyValue) :
    Except String Str :=
  if truthy address = false then
    .error ("Email must be present.")
  else
    match address with
    | .str s =>
        if '@' ∉ s then
          .error ("Email must have an '@' in the address.")
        else if hasDuplicate store s then
          .error ("Email must be unique.")
        else if 254 < s.length then
          .error ("Email is too long.")
        else if (pySplit '@' s).getD 1 [] ∈ blockedDomains then
          .error ("Email cannot be a hotmail or yahoo address.")
        else
          .ok s
    | _ => .error ("Email must be a string.")

/-- The six `ValueError` messages that `validate_email` can raise. -/
def errorMessages : List String :=
  ["Email must be present.",
   "Email must be a string.",
   "Email must have an '@' in the address.",
   "Email must be unique.",
   "Email is too long.",
   "Email cannot be a hotmail or yahoo address."]

/-- Creating an `EmailAddress(email = e, backup_email = b)` record:
each supplied field is validated at assignment time against the current
session; the first `ValueError` aborts the construction, otherwise the new
row is appended to the session. -/
def createRecord (store : Store) (nid : Nat) (e b : Option PyValue) :
    Except String Store := do
  let ev ← match e with
    | Option.some v => Except.map Option.some (validate_email store .email v)
    | Option.none => pure Option.none
  let bv ← match b with
    | Option.some v => Except.map Option.some (validate_email store .backup_email v)
    | Option.none => pure Option.none
  pure (store ++ [⟨nid, ev, bv⟩])

/-- The session a caller observes after attempting a creation: unchanged
when the validator raised (the `ValueError` propagates before anything is
committed), the extended session otherwise. -/
def runCreate (store : Store) (nid : Nat) (e b : Option PyValue) : Store :=
  match createRecord store nid e b with
  | .ok s' => s'
  | .error _ => store

/-- Assigning a new value to the `email` field of the stored row with id
`i`: the validator runs against the current session (which still contains
the row being mutated) before the column is overwritten. -/
def updateEmailField (store : Store) (i : Nat) (v : PyValue) :
    Except String Store :=
  match validate_email store .email v with
  | .ok ev =>
      .ok (store.map fun r => if r.id = i then { r with email := some ev } else r)
  | .error m => .error m

/-- An HTTP response: status code and body. -/
structure HttpResponse where
  status : Nat
  body : String
deriving DecidableEq, Repr

/-- The `index` route of `app.py` (`GET /`): Flask wraps the returned
string in a 200 response.  It takes the persisted state as a parameter
only to express that it never consults it. -/
def index (_store : Store) : HttpResponse :=
  { status := 200, body := "Validations Technical Lesson" }

/-- Domain part as the spec's words for claim C2 describe it: the entire
substring following the first occurrence of `'@'`. -/
def specDomainAfterFirstAt (s : Str) : Str :=
  (s.dropWhile (fun c => c ≠ '@')).drop 1

/-- A 255-character address whose split-domain is blocked: 243 copies of
`'a'` followed by `"@hotmail.com"`. -/
def s255blocked : Str := List.replicate 243 'a' ++ ("@hotmail.com").data

/-- An address containing two `'@'` characters; the text between the two
occurrences is `"hotmail.com"` while the full text after the first `'@'`
is `"hotmail.com@x"`. -/
def twoAtStr : Str := ("user@hotmail.com@x").data

/-- A structurally valid, unblocked address of length 255. -/
def s255plain : Str := List.replicate 249 'a' ++ ("@b.com").data

/-- A structurally valid, unblocked address of length 254. -/
def s254plain : Str := List.replicate 248 'a' ++ ("@b.com").data

/-- `splitOnAux` always returns at least one segment. -/
theorem splitOnAux_ne_nil (c : Char) : ∀ (xs acc : List Char), splitOnAux c xs acc ≠ [] := by
  intro xs
  induction xs with
  | nil => intro acc; simp [splitOnAux]
  | cons x xs ih =>
      intro acc
      simp only [splitOnAux]
      split
      · simp
      · exact ih _

/-- A list containing the separator splits into at least two segments. -/
theorem two_le_splitOnAux_length (c : Char) :
    ∀ (xs acc : List Char), c ∈ xs → 2 ≤ (splitOnAux c xs acc).length := by
  intro xs
  induction xs with
  | nil => intro acc h; cases h
  | cons x xs ih =>
      intro acc h
      simp only [splitOnAux]
      by_cases hx : x = c
      · rw [if_pos hx]
        have hlen : 0 < (splitOnAux c xs []).length :=
          List.length_pos.mpr (splitOnAux_ne_nil c xs [])
        simp only [List.length_cons]
        omega
      · rw [if_neg hx]
        apply ih
        rcases List.mem_cons.mp h with h1 | h2
        · exact absurd h1.symm hx
        · exact h2

/-- Splitting a list that does not contain the separator yields a single
segment. -/
theorem splitOnAux_of_not_mem (c : Char) :
    ∀ (xs acc : List Char), c ∉ xs → splitOnAux c xs acc = [acc.reverse ++ xs] := by
  intro xs
  induction xs with
  | nil => intro acc _; simp [splitOnAux]
  | cons x xs ih =>
      intro acc h
      simp only [List.mem_cons, not_or] at h
      rw [splitOnAux, if_neg (by intro hx; exact h.1 hx.symm), ih _ h.2]
      simp

/-- A string containing `'@'` splits on `'@'` into at least two
segments. -/
theorem two_le_pySplit_length {s : Str} (h : '@' ∈ s) :
    2 ≤ (pySplit '@' s).length :=
  two_le_splitOnAux_length '@' s [] h

/-- A string whose split-segment at index 1 is a blocked domain must
contain an `'@'`: without one, the split is a single segment and the
defaulted index-1 lookup is the empty string, which is not blocked. -/
theorem blocked_imp_at_mem {s : Str}
    (h : (pySplit '@' s).getD 1 [] ∈ blockedDomains) : '@' ∈ s := by
  by_contra hn
  rw [pySplit, splitOnAux_of_not_mem '@' s [] hn] at h
  simp [List.getD, blockedDomains] at h

/-- The duplicate scan succeeds exactly when some stored row's `email`
column holds the candidate. -/
theorem hasDuplicate_iff (store : Store) (s : Str) :
    hasDuplicate store s = true ↔ ∃ r ∈ store, r.email = some s := by
  simp [hasDuplicate, List.any_eq_true]

/-- Characterization of `validate_email` on string inputs as the nested
chain of the five string checks in source order. -/
theorem validate_email_str (store : Store) (key : FieldKey) (s : Str) :
    validate_email store key (.str s) =
      if s = [] then .error ("Email must be present.")
      else if '@' ∉ s then .error ("Email must have an '@' in the address.")
      else if hasDuplicate store s then .error ("Email must be unique.")
      else if 254 < s.length then .error ("Email is too long.")
      else if (pySplit '@' s).getD 1 [] ∈ blockedDomains then
        .error ("Email cannot be a hotmail or yahoo address.")
      else .ok s := by
  rcases eq_or_ne s [] with h | h
  · subst h; simp [validate_email, truthy]
  · rcases List.exists_cons_of_ne_nil h with ⟨x, xs, rfl⟩
    simp [validate_email, truthy, h]

/-- Claim C1: the six checks run in the fixed source order — presence,
type, `'@'`-format, uniqueness, length, blocked domain — and the first
failing check determines the error.  In particular a candidate that is
both longer than 254 characters and has a blocked domain fails with
`"Email is too long."`, not the domain error (provided the earlier
uniqueness check passes, as the claimed order itself requires). -/
theorem order_length_before_domain (store : Store) (key : FieldKey) (s : Str)
    (hdup : hasDuplicate store s = false) (hlen : 254 < s.length)
    (hdom : (pySplit '@' s).getD 1 [] ∈ blockedDomains) :
    validate_email store key (.str s) = .error ("Email is too long.") := by
  have hat : '@' ∈ s := blocked_imp_at_mem hdom
  have hne : s ≠ [] := List.ne_nil_of_mem hat
  rw [validate_email_str]
  simp [hne, hat, hdup, hlen]

set_option maxRecDepth 4000 in
/-- Witness for C1: a concrete 255-character `hotmail.com` address fails
with the length error. -/
theorem order_length_before_domain_witness :
    validate_email [] .email (.str s255blocked) = .error ("Email is too long.") :=
  order_length_before_domain [] .email s255blocked (by decide) (by decide) (by decide)

/-- Counterexample for C2: the code's blocked-domain test uses
`address.split("@")[1]`, the text between the first and second `'@'`, not
the whole substring after the first `'@'`.  For `"user@hotmail.com@x"`
that substring is `"hotmail.com@x"`, which is not blocked, yet the write
is rejected with the domain error. -/
theorem domain_uses_second_segment_cex :
    validate_email [] .email (.str twoAtStr) =
      .error ("Email cannot be a hotmail or yahoo address.") ∧
    specDomainAfterFirstAt twoAtStr ∉ blockedDomains := by
  refine ⟨rfl, by decide⟩

/-- Claim C2 (amended): for a candidate that passes the earlier checks,
the write is rejected with the domain error if and only if the segment at
index 1 of the `'@'`-split — the text between the first and second `'@'`,
or everything after the `'@'` when it is unique — equals `"hotmail.com"`
or `"yahoo.com"` (case-sensitive); so `"user@hotmail.com@x"` is
rejected. -/
theorem blocked_domain_iff_segment_one (store : Store) (key : FieldKey) (s : Str)
    (hat : '@' ∈ s) (hdup : hasDuplicate store s = false) (hlen : s.length ≤ 254) :
    validate_email store key (.str s) =
        .error ("Email cannot be a hotmail or yahoo address.") ↔
      (pySplit '@' s).getD 1 [] ∈ blockedDomains := by
  have hne : s ≠ [] := List.ne_nil_of_mem hat
  rw [validate_email_str]
  by_cases hd : (pySplit '@' s).getD 1 [] ∈ blockedDomains
  · simp [hne, hat, hdup, Nat.not_lt.mpr hlen, hd]
  · simp [hne, hat, hdup, Nat.not_lt.mpr hlen, hd]

/-- Witness for C2 (amended): `"a@yahoo.com"` is rejected with the domain
error. -/
theorem blocked_domain_iff_segment_one_witness :
    validate_email [] .email (.str (("a@yahoo.com").data)) =
      .error ("Email cannot be a hotmail or yahoo address.") :=
  (blocked_domain_iff_segment_one [] .email (("a@yahoo.com").data)
    (by decide) (by decide) (by decide)).mpr (by decide)

/-- Counterexample for C3: the integer `0` is not a string, yet its
assignment fails with the presence error (the falsy check runs first),
not the claimed type error. -/
theorem falsy_nonstring_presence_cex :
    validate_email [] .email (.int 0) = .error ("Email must be present.") ∧
    validate_email [] .email (.int 0) ≠ .error ("Email must be a string.") := by
  refine ⟨rfl, ?_⟩
  intro h
  rw [show validate_email [] .email (.int 0) = .error ("Email must be present.")
    from rfl] at h
  injection h with h'
  exact absurd h' (by decide)

/-- Claim C3 (amended): a non-string value fails with the type error
`"Email must be a string."` exactly when it is truthy; falsy non-string
values (`0`, `False`, `[]`, `None`) fail earlier, with the presence
error. -/
theorem nonstring_rejection (store : Store) (key : FieldKey) (v : PyValue)
    (h : isStr v = false) :
    validate_email store key v =
      .error (if truthy v = true then ("Email must be a string.")
              else ("Email must be present.")) := by
  cases v with
  | str s => simp [isStr] at h
  | int n =>
      by_cases h0 : n = 0
      · subst h0; simp [validate_email, truthy]
      · simp [validate_email, truthy, h0]
  | list xs =>
      by_cases h0 : xs = []
      · subst h0; simp [validate_email, truthy]
      · simp [validate_email, truthy, h0]
  | bool b => cases b <;> simp [validate_email, truthy]
  | none => simp [validate_email, truthy]

/-- Witness for C3 (amended): a non-empty (hence truthy) Python list gets
the type error. -/
theorem nonstring_rejection_witness :
    validate_email [] .email (.list [PyValue.none]) =
      .error (if truthy (.list [PyValue.none]) = true then ("Email must be a string.")
              else ("Email must be present.")) :=
  nonstring_rejection [] .email (.list [PyValue.none]) rfl

/-- Claim C4: the validator ignores which field is being assigned, and the
uniqueness check consults only the stored `email` column: for candidates
passing the earlier checks, the write fails with `"Email must be unique."`
exactly when some stored row's `email` equals the candidate — a collision
with a stored `backup_email` alone is never rejected. -/
theorem uniqueness_against_email_column :
    (∀ (store : Store) (k1 k2 : FieldKey) (v : PyValue),
        validate_email store k1 v = validate_email store k2 v) ∧
    (∀ (store : Store) (key : FieldKey) (s : Str), s ≠ [] → '@' ∈ s →
        (validate_email store key (.str s) = .error ("Email must be unique.") ↔
          ∃ r ∈ store, r.email = some s)) := by
  constructor
  · intro store k1 k2 v; rfl
  · intro store key s hne hat
    rw [validate_email_str, ← hasDuplicate_iff store s, if_neg hne,
      if_neg (not_not_intro hat)]
    by_cases hd : hasDuplicate store s = true
    · rw [if_pos hd]
      exact ⟨fun _ => hd, fun _ => rfl⟩
    · rw [if_neg hd]
      constructor
      · intro hcontra
        by_cases hl : 254 < s.length
        · rw [if_pos hl] at hcontra
          injection hcontra with h'
          exact absurd h' (by decide)
        · rw [if_neg hl] at hcontra
          by_cases hm : (pySplit '@' s).getD 1 [] ∈ blockedDomains
          · rw [if_pos hm] at hcontra
            injection hcontra with h'
            exact absurd h' (by decide)
          · rw [if_neg hm] at hcontra
            cases hcontra
      · intro hh; exact absurd hh hd

/-- Witness for C4: assigning to `backup_email` a value that equals an
existing row's `email` fails with the uniqueness error. -/
theorem uniqueness_against_email_column_witness :
    validate_email [⟨1, some (("a@b.com").data), Option.none⟩] .backup_email
        (.str (("a@b.com").data)) = .error ("Email must be unique.") :=
  (uniqueness_against_email_column.2 [⟨1, some (("a@b.com").data), Option.none⟩]
      .backup_email (("a@b.com").data) (by decide) (by decide)).mpr
    ⟨⟨1, some (("a@b.com").data), Option.none⟩, by simp, rfl⟩

/-- Claim C5: for candidates passing the earlier checks, the write fails
with `"Email is too long."` exactly when the length exceeds 254; a valid
unblocked candidate of length at most 254 is accepted. -/
theorem length_check_boundary (store : Store) (key : FieldKey) (s : Str)
    (hne : s ≠ []) (hat : '@' ∈ s) (hdup : hasDuplicate store s = false) :
    (validate_email store key (.str s) = .error ("Email is too long.") ↔
      254 < s.length) ∧
    (s.length ≤ 254 → (pySplit '@' s).getD 1 [] ∉ blockedDomains →
      validate_email store key (.str s) = .ok s) := by
  have hdne : ¬ hasDuplicate store s = true := by simp [hdup]
  constructor
  · rw [validate_email_str, if_neg hne, if_neg (not_not_intro hat), if_neg hdne]
    by_cases hl : 254 < s.length
    · rw [if_pos hl]
      exact ⟨fun _ => hl, fun _ => rfl⟩
    · rw [if_neg hl]
      constructor
      · intro hcontra
        by_cases hm : (pySplit '@' s).getD 1 [] ∈ blockedDomains
        · rw [if_pos hm] at hcontra
          injection hcontra with h'
          exact absurd h' (by decide)
        · rw [if_neg hm] at hcontra
          cases hcontra
      · intro h254; exact absurd h254 hl
  · intro hlen hdom
    rw [validate_email_str, if_neg hne, if_neg (not_not_intro hat), if_neg hdne,
      if_neg (Nat.not_lt.mpr hlen), if_neg hdom]

set_option maxRecDepth 4000 in
/-- Witness for C5: a valid 255-character address is rejected with the
length error and a valid 254-character address is accepted unchanged. -/
theorem length_check_boundary_witness :
    validate_email [] .email (.str s255plain) = .error ("Email is too long.") ∧
    validate_email [] .email (.str s254plain) = .ok s254plain :=
  ⟨(length_check_boundary [] .email s255plain (by decide) (by decide)
      (by decide)).1.mpr (by decide),
   (length_check_boundary [] .email s254plain (by decide) (by decide)
      (by decide)).2 (by decide) (by decide)⟩

/-- Claim C6: a non-empty string containing `'@'`, of length at most 254,
absent from the stored `email` column and passing the blocked-domain
check, is accepted: the validator returns its argument unchanged and the
created row stores exactly the input value. -/
theorem valid_value_stored_unchanged (store : Store) (key : FieldKey) (nid : Nat)
    (s : Str) (hne : s ≠ []) (hat : '@' ∈ s) (hdup : hasDuplicate store s = false)
    (hlen : s.length ≤ 254)
    (hdom : (pySplit '@' s).getD 1 [] ∉ blockedDomains) :
    validate_email store key (.str s) = .ok s ∧
    createRecord store nid (Option.some (.str s)) Option.none =
      .ok (store ++ [⟨nid, Option.some s, Option.none⟩]) := by
  have hdne : ¬ hasDuplicate store s = true := by simp [hdup]
  have hv : ∀ k, validate_email store k (.str s) = .ok s := by
    intro k
    rw [validate_email_str, if_neg hne, if_neg (not_not_intro hat), if_neg hdne,
      if_neg (Nat.not_lt.mpr hlen), if_neg hdom]
  refine ⟨hv key, ?_⟩
  simp [createRecord, hv, Except.map]

/-- Witness for C6: `"a@b.com"` is accepted and stored exactly as
given. -/
theorem valid_value_stored_unchanged_witness :
    validate_email [] .email (.str (("a@b.com").data)) = .ok (("a@b.com").data) ∧
    createRecord [] 1 (Option.some (.str (("a@b.com").data))) Option.none =
      .ok [⟨1, Option.some (("a@b.com").data), Option.none⟩] := by
  have h := valid_value_stored_unchanged [] .email 1 (("a@b.com").data)
    (by decide) (by decide) (by decide) (by decide) (by decide)
  simpa using h

/-- Claim C7: every validation failure is the single error kind
(`Except.error`, the embedding of `ValueError`) distinguished only by one
of the six message texts, raised at the point of field assignment; a
failed creation leaves the session exactly as it was, with no partial
field updates persisted. -/
theorem failures_single_error_kind :
    (∀ (store : Store) (key : FieldKey) (v : PyValue) (m : String),
        validate_email store key v = .error m → m ∈ errorMessages) ∧
    (∀ (store : Store) (nid : Nat) (e b : Option PyValue) (m : String),
        createRecord store nid e b = .error m → runCreate store nid e b = store) := by
  constructor
  · intro store key v m h
    cases v with
    | str s =>
        rw [validate_email_str] at h
        split_ifs at h <;> (injection h with h'; subst h'; decide)
    | int n =>
        rw [show validate_email store key (.int n) =
              if (n != 0) = false then .error ("Email must be present.")
              else .error ("Email must be a string.") from rfl] at h
        split at h <;> (injection h with h'; subst h'; decide)
    | list xs =>
        rw [show validate_email store key (.list xs) =
              if (!xs.isEmpty) = false then .error ("Email must be present.")
              else .error ("Email must be a string.") from rfl] at h
        split at h <;> (injection h with h'; subst h'; decide)
    | bool b =>
        rw [show validate_email store key (.bool b) =
              if b = false then .error ("Email must be present.")
              else .error ("Email must be a string.") from rfl] at h
        split at h <;> (injection h with h'; subst h'; decide)
    | none =>
        rw [show validate_email store key PyValue.none =
              .error ("Email must be present.") from rfl] at h
        injection h with h'
        subst h'
        decide
  · intro store nid e b m h
    rw [runCreate, h]

/-- Witness for C7: the type failure's message is among the six, and the
failed creation leaves the empty session unchanged. -/
theorem failures_single_error_kind_witness :
    (("Email must be a string.") ∈ errorMessages) ∧
    runCreate [] 1 (Option.some (.int 1)) Option.none = [] :=
  ⟨failures_single_error_kind.1 [] .email (.int 1) ("Email must be a string.") rfl,
   failures_single_error_kind.2 [] 1 (Option.some (.int 1)) Option.none
     ("Email must be a string.") rfl⟩

/-- Claim C8: `GET /` always answers 200 with the exact body
`"Validations Technical Lesson"`, whatever the persisted state. -/
theorem index_route_constant (store : Store) :
    index store = { status := 200, body := "Validations Technical Lesson" } := rfl

/-- Claim C9: for every input reaching the blocked-domain check the
earlier `'@'`-presence check guarantees at least one `'@'`, so splitting
on `'@'` yields at least two segments and the index-1 access of
`address.split("@")[1]` is in bounds. -/
theorem split_index_one_in_bounds (s : Str) (h : '@' ∈ s) :
    2 ≤ (pySplit '@' s).length := two_le_pySplit_length h

/-- Witness for C9: `"a@b"` splits into two segments. -/
theorem split_index_one_in_bounds_witness :
    2 ≤ (pySplit '@' (("a@b").data)).length :=
  split_index_one_in_bounds (("a@b").data) (by decide)

/-- Claim C10: the uniqueness query does not exclude the row being
mutated, so re-assigning a stored row's own `email` value to its `email`
field fails with `"Email must be unique."`: a persisted email can never be
written back to its current value. -/
theorem self_update_fails_unique (store : Store) (r : EmailRecord) (s : Str)
    (hr : r ∈ store) (he : r.email = some s) (hne : s ≠ []) (hat : '@' ∈ s) :
    updateEmailField store r.id (.str s) = .error ("Email must be unique.") := by
  have hd : hasDuplicate store s = true := (hasDuplicate_iff store s).mpr ⟨r, hr, he⟩
  rw [updateEmailField, validate_email_str, if_neg hne, if_neg (not_not_intro hat),
    if_pos hd]

/-- Witness for C10: rewriting the only stored row's email to its current
value `"a@b.com"` fails with the uniqueness error. -/
theorem self_update_fails_unique_witness :
    updateEmailField [⟨1, Option.some (("a@b.com").data), Option.none⟩] 1
        (.str (("a@b.com").data)) = .error ("Email must be unique.") :=
  self_update_fails_unique [⟨1, Option.some (("a@b.com").data), Option.none⟩]
    ⟨1, Option.some (("a@b.com").data), Option.none⟩ (("a@b.com").data)
    (by simp) rfl (by decide) (by decide)

end EmailValidation
